import Mathlib

/-!
Shallow embedding of the tuned_chat relay (src/main.py, src/crud.py, src/models.py).

Conventions of the embedding:
* Python `str` is `String`; nullable TEXT columns are `Option String`.
* Python truthiness-based fallback `a or b` on optional strings is `pyOr`
  (both `None` and `""` are falsy).
* The external rewrite service call is an oracle argument `service : Option String`:
  `some resp` models a successful completion whose content is `resp`, `none`
  models every exception path (connectivity, rate limit, remote error, or any
  other exception raised while producing the text).
* The `time.time()` clock is a `ℚ` argument `now`; `time.time()` truthiness
  (`bool(ts and …)`) is modelled exactly, so `ts = 0` is falsy.
* WebSocket handles are opaque `Conn := Nat` tokens; the success or failure of
  `ws.send_json` during fanout is an oracle `ok : Conn → Bool`.
* The connection registry `Dict[int, Set[WebSocket]]` is a function
  `Int → Option (Finset Conn)`; a key is "present" when the value is `some _`.
-/

namespace TunedChat

/-- Row of the `users` table (src/models.py, class User). -/
structure User where
  id : Int
  nickname : String
  instruction : Option String
  outgoing_instruction : Option String
deriving DecidableEq, Repr

/-- Row of the `messages` table (src/models.py, class Message). -/
structure Message where
  id : Int
  sender_id : Int
  recipient_id : Int
  original_text : Option String
  outgoing_text : Option String
  rephrased_text : Option String
  instruction_used : Option String
  outgoing_instruction_used : Option String
  timestamp : Int
deriving DecidableEq, Repr

/-- Python `a or b` for an optional string `a`: both `None` and `""` are falsy. -/
def pyOr (a : Option String) (b : String) : String :=
  match a with
  | none => b
  | some s => if s = "" then b else s

/-- Python `s.strip()`: drop leading and trailing whitespace. Defined over the
character list so that it is structurally recursive. -/
def pyStrip (s : String) : String :=
  ⟨((s.data.dropWhile Char.isWhitespace).reverse.dropWhile Char.isWhitespace).reverse⟩

/-- Python `s.lower()` (ASCII case folding suffices for the label check). -/
def pyLower (s : String) : String :=
  ⟨s.data.map Char.toLower⟩

/-- Python `s.startswith(pre)`. -/
def pyStartsWith (s pre : String) : Bool :=
  pre.data.isPrefixOf s.data

/-- Python `s.split(":", 1)[1]`: everything after the first colon (the caller
guarantees a colon is present). -/
def afterFirstColon (s : String) : String :=
  ⟨(s.data.dropWhile (fun c => c ≠ ':')).drop 1⟩

/-- The echoed-label stripping of `_rewrite_text` (src/main.py lines 125-126):
if the lowered response starts with "rewritten message:", keep only the
stripped text after the first colon. -/
def stripEcho (r0 : String) : String :=
  if pyStartsWith (pyLower r0) "rewritten message:" then pyStrip (afterFirstColon r0) else r0

/-- Embedding of `_rewrite_text` (src/main.py lines 100-133). `service` is the
outcome of the single external completion call: `some resp` is a success with
content `resp`, `none` is any raised exception (the `except` arms at lines
130-133 both return the same triple). -/
def _rewrite_text (content : String) (instruction : Option String) (service : Option String) :
    String × Bool × Bool :=
  let instr := pyStrip (pyOr instruction "")
  if instr = "" then (content, false, false)
  else
    match service with
    | none => (content, false, true)
    | some resp =>
      let rewritten := stripEcho (pyStrip resp)
      if rewritten = "" then (content, false, false)
      else (rewritten, true, false)

/-- PRESENCE_TIMEOUT_SEC (src/main.py line 51). -/
def PRESENCE_TIMEOUT_SEC : ℚ := 15

/-- The module-level `presence` map: user id to last-seen timestamp. -/
abbrev Presence := Int → Option ℚ

/-- Embedding of `_prune_presence` (src/main.py lines 53-56): drop entries with
`now - ts >= PRESENCE_TIMEOUT_SEC`. -/
def _prune_presence (p : Presence) (now : ℚ) : Presence :=
  fun u =>
    match p u with
    | none => none
    | some ts => if PRESENCE_TIMEOUT_SEC ≤ now - ts then none else some ts

/-- Embedding of `_is_online` (src/main.py lines 169-171):
`bool(ts and now - ts < PRESENCE_TIMEOUT_SEC)`. A float is falsy exactly when
it is zero, so `ts = 0` makes the whole conjunction falsy. -/
def _is_online (p : Presence) (uid : Int) (now : ℚ) : Bool :=
  match p uid with
  | none => false
  | some ts => if ts = 0 then false else decide (now - ts < PRESENCE_TIMEOUT_SEC)

/-- Embedding of `presence_ping` (src/main.py lines 148-153): record `now` for
`uid`, then prune with the same `now`. -/
def presence_ping (p : Presence) (uid : Int) (now : ℚ) : Presence :=
  _prune_presence (fun v => if v = uid then some now else p v) now

/-- WebSocket handle. -/
abbrev Conn := Nat

/-- `ConnectionManager.active : Dict[int, Set[WebSocket]]`. -/
abbrev Registry := Int → Option (Finset Conn)

/-- Embedding of `ConnectionManager.connect` (src/main.py lines 254-256):
`self._bucket(user_id).add(websocket)` where `_bucket` is
`self.active.setdefault(user_id, set())`. -/
def connect (reg : Registry) (uid : Int) (c : Conn) : Registry :=
  fun v => if v = uid then some (insert c ((reg uid).getD ∅)) else reg v

/-- Embedding of `ConnectionManager.disconnect` (src/main.py lines 258-263).
The source reads:
```
bucket = self.active.get(user_id)
if bucket and websocket in bucket:
    bucket.remove(websocket)
if bucket and not bucket:
    self.active.pop(user_id, None)
```
The second guard tests the (mutated) set for being simultaneously truthy and
falsy, which is translated literally below as `b2 ≠ ∅ ∧ b2 = ∅`. -/
def disconnect (reg : Registry) (uid : Int) (c : Conn) : Registry :=
  match reg uid with
  | none => reg
  | some b =>
    let b2 := if b ≠ ∅ ∧ c ∈ b then b.erase c else b
    if b2 ≠ ∅ ∧ b2 = ∅ then
      fun v => if v = uid then none else reg v
    else
      fun v => if v = uid then some b2 else reg v

/-- One iteration of the fanout loop body (src/main.py lines 267-271): try the
write; on failure call `disconnect` for that socket and keep going. -/
def sendStep (uid : Int) (ok : Conn → Bool) (acc : Registry × List Conn) (c : Conn) :
    Registry × List Conn :=
  if ok c then (acc.1, acc.2 ++ [c]) else (disconnect acc.1 uid c, acc.2)

/-- Embedding of `ConnectionManager.send_to_user` (src/main.py lines 265-271):
iterate over a snapshot of the bucket; a failed write (`ok c = false`) calls
`disconnect` for that socket and the loop continues. Returns the final registry
and the list of connections the payload was written to. The snapshot order of
`list(set)` is unspecified in Python; the ascending order is one admissible
snapshot. -/
def send_to_user (reg : Registry) (uid : Int) (ok : Conn → Bool) : Registry × List Conn :=
  (((reg uid).getD ∅).sort (· ≤ ·)).foldl (sendStep uid ok) (reg, [])

/-- Storage collaborator state: user rows, message rows, the next autoincrement
id, and the server clock used for the `timestamp` server default. -/
structure Db where
  users : List User
  messages : List Message
  nextId : Int
  now : Int
deriving DecidableEq, Repr

/-- Embedding of `db.get(models.User, uid)`: primary-key lookup. -/
def getUserById (db : Db) (uid : Int) : Option User :=
  db.users.find? (fun u => u.id = uid)

/-- Embedding of `crud.create_message` (src/crud.py lines 38-60): insert a row
with the given fields, the next id and the server timestamp. -/
def create_message (db : Db) (sender_id recipient_id : Int)
    (original_text outgoing_text rephrased_text outgoing_instruction instruction : String) :
    Db × Message :=
  let msg : Message :=
    ⟨db.nextId, sender_id, recipient_id, some original_text, some outgoing_text,
      some rephrased_text, some instruction, some outgoing_instruction, db.now⟩
  (⟨db.users, db.messages ++ [msg], db.nextId + 1, db.now⟩, msg)

/-- An outbound JSON frame of the realtime channel (src/main.py). -/
inductive Payload
  | joined (ok : Bool) (peer_id : Int)
  | message (id sender_id recipient_id : Int)
      (text final_text original_text outgoing_text : String) (mine : Bool)
  | error (detail : String) (msg : Option String)
deriving DecidableEq, Repr

/-- The in-memory state the websocket handler touches: the connection registry
and the storage collaborator. -/
structure ServerState where
  reg : Registry
  db : Db

/-- Lines 304-305 of src/main.py: `sender = await db.get(models.User, sender_id)`
then `sender_outgoing = sender.outgoing_instruction if sender else ""`. -/
def senderOutgoingOf (db : Db) (user_id : Int) : Option String :=
  match getUserById db user_id with
  | some s => s.outgoing_instruction
  | none => some ""

/-- Embedding of the `send` branch of `ws_endpoint` (src/main.py lines 291-356).
`wsConn` is the originating websocket, `svc1`/`svc2` the outcomes of the two
rewrite-service calls (unused when the corresponding call is not made), and
`okS`/`okR` the write oracles for the two fanouts. Returns the new state and
the list of (connection, payload) writes, in order. -/
def handleSend (st : ServerState) (wsConn : Conn) (user_id toField : Int) (rawText : String)
    (svc1 svc2 : Option String) (okS okR : Conn → Bool) :
    ServerState × List (Conn × Payload) :=
  let text := pyStrip rawText
  if text = "" then (st, [])
  else
    match getUserById st.db toField with
    | none => (st, [(wsConn, Payload.error "recipient_not_found" none)])
    | some recipient =>
      let sender_outgoing := senderOutgoingOf st.db user_id
      let recipient_incoming := pyOr recipient.instruction ""
      let r1 := _rewrite_text text sender_outgoing svc1
      let outgoing_text := r1.1
      let outgoing_error := r1.2.2
      let r2 := _rewrite_text outgoing_text (some recipient_incoming) svc2
      let final_text := r2.1
      let incoming_error := r2.2.2
      let errEffs :=
        if outgoing_error || incoming_error then
          [(wsConn, Payload.error "rewrite_failed"
            (some "Unable to reach rewriting service; sending fallback text."))]
        else []
      let pm := create_message st.db user_id toField text outgoing_text final_text
        (pyOr sender_outgoing "") (pyOr (some recipient_incoming) "")
      let msg := pm.2
      let payload_sender : Payload :=
        .message msg.id user_id toField outgoing_text final_text text outgoing_text true
      let payload_recipient : Payload :=
        .message msg.id user_id toField final_text final_text text outgoing_text false
      let f1 := send_to_user st.reg user_id okS
      let f2 := send_to_user f1.1 toField okR
      (⟨f2.1, pm.1⟩,
        errEffs ++ f1.2.map (fun c => (c, payload_sender))
          ++ f2.2.map (fun c => (c, payload_recipient)))

/-- One inbound frame as the loop body sees it. `malformed` stands for every
frame on which `json.loads(raw)` or the subsequent field accesses
(`data.get` on a non-dict, `int(data["to"])`, `int(data.get("peer_id", 0))`)
raise; `other` is a parsed object whose `type` is neither `join` nor `send`. -/
inductive Inbound
  | malformed
  | join (peer_id : Int)
  | send (toField : Int) (text : String)
  | other
deriving DecidableEq, Repr

/-- Outcome of one iteration of the `while True` receive loop: either the loop
continues with the connection open, or the per-connection task ends (the
`finally` clause has run `manager.disconnect`). -/
inductive StepResult
  | next (st : ServerState) (effs : List (Conn × Payload))
  | closed (st : ServerState) (effs : List (Conn × Payload))

/-- Embedding of one iteration of the `ws_endpoint` loop (src/main.py lines
283-363). The `try` around the loop catches only `WebSocketDisconnect`, so an
exception raised while parsing or dispatching a frame propagates: the `finally`
runs `manager.disconnect` and the task ends without any reply. -/
def ws_step (st : ServerState) (user_id : Int) (wsConn : Conn) (frame : Inbound)
    (svc1 svc2 : Option String) (okS okR : Conn → Bool) : StepResult :=
  match frame with
  | .malformed => .closed ⟨disconnect st.reg user_id wsConn, st.db⟩ []
  | .join p => .next st [(wsConn, .joined true p)]
  | .send toF text =>
      let r := handleSend st wsConn user_id toF text svc1 svc2 okS okR
      .next r.1 r.2
  | .other => .next st [(wsConn, .error "unknown_type" none)]

/-- One row of the dict built by `get_conversation_summaries`. -/
structure Summary where
  peer_id : Int
  nickname : String
  last_message_id : Option Int
  last_message_sender_id : Option Int
  last_message_text : Option String
  last_message_timestamp : Option Int
deriving DecidableEq, Repr

/-- The all-null summary a peer starts with (src/crud.py lines 77-87). -/
def blankSummary (u : User) : Summary :=
  ⟨u.id, u.nickname, none, none, none, none⟩

/-- One binding step of the dict comprehension over users. -/
def initStep (acc : Int → Option Summary) (u : User) : Int → Option Summary :=
  fun v => if v = u.id then some (blankSummary u) else acc v

/-- The dict comprehension over users (src/crud.py lines 75-87): every user id
other than the viewer's is mapped to an all-null summary; a later duplicate id
would overwrite an earlier one, as in a Python dict comprehension. -/
def initSummaries (users : List User) (user_id : Int) : Int → Option Summary :=
  (users.filter (fun u => u.id ≠ user_id)).foldl initStep (fun _ => none)

/-- `peer_id = msg.recipient_id if msg.sender_id == user_id else msg.sender_id`
(src/crud.py line 95). -/
def peerOf (user_id : Int) (m : Message) : Int :=
  if m.sender_id = user_id then m.recipient_id else m.sender_id

/-- The direction-dependent display-text fallback chain (src/crud.py lines
101-106), with Python `or` semantics on the nullable columns. -/
def summaryText (user_id : Int) (m : Message) : String :=
  if m.sender_id = user_id then
    pyOr m.outgoing_text (pyOr m.rephrased_text (pyOr m.original_text ""))
  else
    pyOr m.rephrased_text (pyOr m.outgoing_text (pyOr m.original_text ""))

/-- Filling a summary from a message (src/crud.py lines 107-110). -/
def fillSummary (user_id : Int) (m : Message) (s : Summary) : Summary :=
  ⟨s.peer_id, s.nickname, some m.id, some m.sender_id,
    some (summaryText user_id m), some m.timestamp⟩

/-- The body of the message scan (src/crud.py lines 94-110): skip a message
whose peer has no dict entry (`if peer_id not in summaries: continue`) or whose
entry is already filled (`if summary["last_message_id"] is not None: continue`),
otherwise fill the peer's entry. -/
def scanStep (user_id : Int) (acc : Int → Option Summary) (m : Message) : Int → Option Summary :=
  let peer := peerOf user_id m
  match acc peer with
  | none => acc
  | some s =>
    if s.last_message_id ≠ none then acc
    else fun v => if v = peer then some (fillSummary user_id m s) else acc v

/-- Embedding of `crud.get_conversation_summaries` (src/crud.py lines 74-112).
`msgs` is the result of the storage query: the viewer's messages ordered by
timestamp descending. The scan takes, per peer, the first message encountered
whose summary is still unfilled, and skips messages whose peer has no dict
entry. -/
def get_conversation_summaries (users : List User) (user_id : Int) (msgs : List Message) :
    Int → Option Summary :=
  msgs.foldl (scanStep user_id) (initSummaries users user_id)

/-- True when a loop iteration leaves the connection open (the loop continues). -/
def staysOpen : StepResult → Bool
  | .next _ _ => true
  | .closed _ _ => false

/-- The (connection, payload) writes a loop iteration performed. -/
def stepEffects : StepResult → List (Conn × Payload)
  | .next _ effs => effs
  | .closed _ effs => effs

/-! Concrete fixtures used by the witnesses. -/

/-- Fixture user: alice, outgoing instruction "formal". -/
def aliceW : User := ⟨1, "alice", some "", some "formal"⟩

/-- Fixture user: bob, incoming instruction "pirate". -/
def bobW : User := ⟨2, "bob", some "pirate", some ""⟩

/-- Fixture store holding alice and bob and no messages. -/
def dbW : Db := ⟨[aliceW, bobW], [], 1, 0⟩

/-- Fixture registry: alice has connection 10, bob connection 20. -/
def regW : Registry :=
  fun v => if v = 1 then some ({10} : Finset Conn)
    else if v = 2 then some ({20} : Finset Conn) else none

/-- Fixture server state. -/
def stW : ServerState := ⟨regW, dbW⟩

/-- Fixture message history between alice (id 1) and bob (id 2), newest first:
bob replied at time 5 (no outgoing text stored), alice wrote at time 3. -/
def msgsW : List Message :=
  [⟨11, 2, 1, some "yo ho", none, some "Yo ho matey", some "", some "", 5⟩,
   ⟨10, 1, 2, some "hi", some "Greetings", some "Greetings matey", some "pirate", some "formal", 3⟩]

/-! Theorems -/

/-- Each rewrite stage preserves non-emptiness of its input text: every exit
of `_rewrite_text` returns either the original content or a non-empty rewrite. -/
lemma rewrite_text_nonempty (content : String) (instruction service : Option String)
    (h : content ≠ "") : (_rewrite_text content instruction service).1 ≠ "" := by
  cases service with
  | none =>
    unfold _rewrite_text
    dsimp only
    split_ifs <;> exact h
  | some resp =>
    unfold _rewrite_text
    dsimp only
    split_ifs with h1 h2
    · exact h
    · exact h
    · exact h2

/-- C4: for all text and every non-blank instruction, a failing rewrite-service
call makes `_rewrite_text` return the original text with `changed = false` and
`failed = true`; the function is total, so it never raises. -/
theorem rewrite_failure_returns_original (content : String) (instruction : Option String)
    (h : pyStrip (pyOr instruction "") ≠ "") :
    _rewrite_text content instruction none = (content, false, true) := by
  unfold _rewrite_text
  rw [if_neg h]

/-- Witness for C4 at text "hey" and instruction "pirate speak". -/
theorem rewrite_failure_returns_original_witness :
    pyStrip (pyOr (some "pirate speak") "") ≠ "" ∧
      _rewrite_text "hey" (some "pirate speak") none = ("hey", false, true) :=
  ⟨by decide, rewrite_failure_returns_original "hey" (some "pirate speak") (by decide)⟩

/-- Removing a registered connection always leaves the bucket in place: the pop
guard `if bucket and not bucket` of the source can never hold, so the key keeps
mapping to the erased set. -/
lemma disconnect_apply_self (reg : Registry) (uid : Int) (c : Conn) (b : Finset Conn)
    (hb : reg uid = some b) : disconnect reg uid c uid = some (b.erase c) := by
  unfold disconnect
  rw [hb]
  have hb2 : (if b ≠ ∅ ∧ c ∈ b then b.erase c else b) = b.erase c := by
    split
    · rfl
    · rename_i hcond
      rcases not_and_or.mp hcond with h1 | h2
      · have hbe : b = ∅ := not_not.mp h1
        subst hbe
        simp
      · exact (Finset.erase_eq_of_not_mem h2).symm
  simp only [hb2]
  rw [if_neg (by rintro ⟨hx, hy⟩; exact hx hy)]
  simp

/-- `disconnect` only touches the bucket of the user it is called for. -/
lemma disconnect_apply_other (reg : Registry) (uid : Int) (c : Conn) (v : Int)
    (hv : v ≠ uid) : disconnect reg uid c v = reg v := by
  unfold disconnect
  cases hr : reg uid with
  | none => rfl
  | some b =>
    dsimp only
    split <;> simp [hv]

/-- C3 (code bug): with the registry holding exactly one connection 0 for user
7, `disconnect 7 0` leaves key 7 present, mapped to the empty set, instead of
removing it: the cleanup guard `if bucket and not bucket:` is always false. -/
theorem disconnect_last_connection_keeps_key :
    (disconnect (fun v => if v = 7 then some {0} else none) 7 0) 7
      = some (∅ : Finset Conn) := by
  rw [disconnect_apply_self (fun v => if v = 7 then some {0} else none) 7 0 {0} rfl]
  simp

/-- C10: calling `disconnect` for a connection that is not registered for the
user — including when the user has no registry entry at all — changes nothing:
the whole registry is returned unchanged, and the function is total. -/
theorem disconnect_unregistered_noop (reg : Registry) (uid : Int) (c : Conn)
    (h : ∀ b, reg uid = some b → c ∉ b) : disconnect reg uid c = reg := by
  unfold disconnect
  cases hr : reg uid with
  | none => rfl
  | some b =>
    have hc : c ∉ b := h b hr
    have hb2 : (if b ≠ ∅ ∧ c ∈ b then b.erase c else b) = b := by
      rw [if_neg (by rintro ⟨-, h2⟩; exact hc h2)]
    simp only [hb2]
    rw [if_neg (by rintro ⟨hx, hy⟩; exact hx hy)]
    funext v
    by_cases hv : v = uid
    · subst hv
      simp [hr]
    · simp [hv]

/-- Witness for C10 on the empty registry. -/
theorem disconnect_unregistered_noop_witness :
    disconnect (fun _ => none) 5 3 = (fun _ => none) :=
  disconnect_unregistered_noop (fun _ => none) 5 3 (fun _ hb => Option.noConfusion hb)

/-- Positivity of stored timestamps is an invariant of the presence map: it
holds for the initially empty map, and a ping at a positive time preserves it,
since every entry after the ping is either the fresh `now` or a surviving older
entry. `time.time()` is strictly positive, so every reachable presence state
satisfies it. -/
lemma presence_ping_preserves_pos (p : Presence) (uid : Int) (now : ℚ)
    (hval : ∀ u ts, p u = some ts → 0 < ts) (hnow : 0 < now) :
    ∀ u ts, presence_ping p uid now u = some ts → 0 < ts := by
  intro u ts h
  unfold presence_ping _prune_presence at h
  dsimp only at h
  by_cases hu : u = uid
  · rw [if_pos hu] at h
    dsimp only at h
    split at h
    · exact absurd h (by simp)
    · injection h with h2
      rw [← h2]
      exact hnow
  · rw [if_neg hu] at h
    cases hp : p u with
    | none =>
      rw [hp] at h
      exact absurd h (by simp)
    | some ts' =>
      rw [hp] at h
      dsimp only at h
      split at h
      · exact absurd h (by simp)
      · injection h with h2
        rw [← h2]
        exact hval u ts' hp

/-- C8: over presence states whose timestamps are actual `time.time()` values
(strictly positive), `_is_online` is true exactly when an entry exists whose
age is strictly below the 15-second timeout; `_is_online` is a pure read.
Moreover a ping at time `now` makes the user online at `now` and offline at
`now + 16`. -/
theorem is_online_spec (p : Presence) (uid : Int) (now : ℚ)
    (hval : ∀ ts, p uid = some ts → 0 < ts) (hnow : 0 < now) :
    (_is_online p uid now = true ↔ ∃ ts, p uid = some ts ∧ now - ts < PRESENCE_TIMEOUT_SEC)
    ∧ _is_online (presence_ping p uid now) uid now = true
    ∧ _is_online (presence_ping p uid now) uid (now + 16) = false := by
  have hnz : now ≠ 0 := ne_of_gt hnow
  have hping : presence_ping p uid now uid = some now := by
    unfold presence_ping _prune_presence
    dsimp only
    rw [if_pos rfl]
    exact if_neg (by norm_num [PRESENCE_TIMEOUT_SEC])
  refine ⟨?_, ?_, ?_⟩
  · unfold _is_online
    cases hr : p uid with
    | none => simp [hr]
    | some ts =>
      have hts : ts ≠ 0 := ne_of_gt (hval ts hr)
      simp [hts, hr]
  · unfold _is_online
    rw [hping]
    dsimp only
    rw [if_neg hnz]
    simp only [decide_eq_true_eq]
    norm_num [PRESENCE_TIMEOUT_SEC]
  · unfold _is_online
    rw [hping]
    dsimp only
    rw [if_neg hnz]
    simp only [decide_eq_false_iff_not]
    have h16 : now + 16 - now = 16 := by ring
    rw [h16]
    norm_num [PRESENCE_TIMEOUT_SEC]

/-- Witness for C8 on the empty presence map at time 6. -/
theorem is_online_spec_witness :
    (0 : ℚ) < 6 ∧
      ((_is_online (fun _ => none) 1 6 = true ↔
          ∃ ts, (fun _ => (none : Option ℚ)) 1 = some ts ∧ 6 - ts < PRESENCE_TIMEOUT_SEC)
        ∧ _is_online (presence_ping (fun _ => none) 1 6) 1 6 = true
        ∧ _is_online (presence_ping (fun _ => none) 1 6) 1 (6 + 16) = false) :=
  ⟨by norm_num,
    is_online_spec (fun _ => none) 1 6 (fun _ hts => Option.noConfusion hts) (by norm_num)⟩

/-- C9 counterexample: on an unparsable frame, with user 1 on connection 0 over
the empty registry and store, the loop does not stay open and writes no payload
at all — so it does not reply with an error and keep the connection open: the
uncaught `json.loads` exception ends the task. -/
theorem malformed_frame_closes_connection :
    staysOpen (ws_step ⟨fun _ => none, ⟨[], [], 1, 0⟩⟩ 1 0 .malformed none none
        (fun _ => true) (fun _ => true)) = false
    ∧ stepEffects (ws_step ⟨fun _ => none, ⟨[], [], 1, 0⟩⟩ 1 0 .malformed none none
        (fun _ => true) (fun _ => true)) = [] :=
  ⟨rfl, rfl⟩

/-- C9 amended: a parsed frame of unknown type gets a generic error reply and
the connection stays open; an unparsable frame raises out of the receive loop,
so the task ends after the `finally` registry cleanup, with no reply sent. -/
theorem unknown_type_replies_malformed_closes (st : ServerState) (user_id : Int) (wsConn : Conn)
    (svc1 svc2 : Option String) (okS okR : Conn → Bool) :
    ws_step st user_id wsConn .other svc1 svc2 okS okR
        = .next st [(wsConn, Payload.error "unknown_type" none)]
      ∧ ws_step st user_id wsConn .malformed svc1 svc2 okS okR
        = .closed ⟨disconnect st.reg user_id wsConn, st.db⟩ [] :=
  ⟨rfl, rfl⟩

/-- C5: a send whose recipient id is not in storage only sends
`error{detail:"recipient_not_found"}` to the originating connection; the state
(registry and store) is returned unchanged, the loop continues, and the result
does not depend on the rewrite-service or fanout oracles, so no rewrite stage
and no fanout can have contributed to it. -/
theorem recipient_not_found_aborts (st : ServerState) (user_id : Int) (wsConn : Conn)
    (toField : Int) (rawText : String)
    (ht : pyStrip rawText ≠ "") (hr : getUserById st.db toField = none) :
    ∀ svc1 svc2 okS okR,
      ws_step st user_id wsConn (.send toField rawText) svc1 svc2 okS okR
        = .next st [(wsConn, Payload.error "recipient_not_found" none)] := by
  intro svc1 svc2 okS okR
  unfold ws_step handleSend
  dsimp only
  rw [if_neg ht, hr]

/-- Witness for C5: user 9 is absent from a single-user store. -/
theorem recipient_not_found_aborts_witness :
    pyStrip "hi" ≠ "" ∧
      getUserById ⟨[⟨1, "alice", some "", some ""⟩], [], 1, 0⟩ 9 = none ∧
      ws_step ⟨fun _ => none, ⟨[⟨1, "alice", some "", some ""⟩], [], 1, 0⟩⟩ 1 0
          (.send 9 "hi") none none (fun _ => true) (fun _ => true)
        = .next ⟨fun _ => none, ⟨[⟨1, "alice", some "", some ""⟩], [], 1, 0⟩⟩
            [(0, Payload.error "recipient_not_found" none)] :=
  ⟨by decide, by decide,
    recipient_not_found_aborts ⟨fun _ => none, ⟨[⟨1, "alice", some "", some ""⟩], [], 1, 0⟩⟩
      1 0 9 "hi" (by decide) (by decide) none none (fun _ => true) (fun _ => true)⟩

lemma sendStep_pos (uid : Int) (ok : Conn → Bool) (acc : Registry × List Conn) (c : Conn)
    (hc : ok c = true) : sendStep uid ok acc c = (acc.1, acc.2 ++ [c]) := by
  unfold sendStep
  rw [hc]
  simp

lemma sendStep_neg (uid : Int) (ok : Conn → Bool) (acc : Registry × List Conn) (c : Conn)
    (hc : ok c = false) : sendStep uid ok acc c = (disconnect acc.1 uid c, acc.2) := by
  unfold sendStep
  rw [hc]
  simp

/-- The fanout loop delivers the payload exactly to the snapshot connections
whose write succeeds, in snapshot order. -/
lemma sendFold_snd (uid : Int) (ok : Conn → Bool) :
    ∀ (l : List Conn) (reg : Registry) (acc : List Conn),
      (l.foldl (sendStep uid ok) (reg, acc)).2 = acc ++ l.filter ok := by
  intro l
  induction l with
  | nil => intro reg acc; simp
  | cons c l ih =>
    intro reg acc
    rw [List.foldl_cons]
    cases hc : ok c with
    | true =>
      rw [sendStep_pos uid ok _ c hc, ih, List.filter_cons_of_pos hc]
      simp
    | false =>
      rw [sendStep_neg uid ok _ c hc, ih, List.filter_cons_of_neg (by simp [hc])]

/-- The fanout loop never touches another user's bucket. -/
lemma sendFold_fst_other (uid : Int) (ok : Conn → Bool) (v : Int) (hv : v ≠ uid) :
    ∀ (l : List Conn) (reg : Registry) (acc : List Conn),
      ((l.foldl (sendStep uid ok) (reg, acc)).1) v = reg v := by
  intro l
  induction l with
  | nil => intro reg acc; rfl
  | cons c l ih =>
    intro reg acc
    rw [List.foldl_cons]
    cases hc : ok c with
    | true =>
      rw [sendStep_pos uid ok _ c hc]
      exact ih reg _
    | false =>
      rw [sendStep_neg uid ok _ c hc, ih _ _]
      exact disconnect_apply_other reg uid c v hv

/-- Effect of the fanout loop on the sender's own bucket: each failed write
erases that one connection. -/
lemma sendFold_fst_self (uid : Int) (ok : Conn → Bool) :
    ∀ (l : List Conn) (reg : Registry) (b : Finset Conn) (acc : List Conn),
      reg uid = some b →
      ((l.foldl (sendStep uid ok) (reg, acc)).1) uid
        = some (l.foldl (fun bb c => if ok c then bb else bb.erase c) b) := by
  intro l
  induction l with
  | nil => intro reg b acc hb; simpa using hb
  | cons c l ih =>
    intro reg b acc hb
    rw [List.foldl_cons, List.foldl_cons]
    cases hc : ok c with
    | true =>
      rw [sendStep_pos uid ok _ c hc, if_pos rfl]
      exact ih reg b _ hb
    | false =>
      rw [sendStep_neg uid ok _ c hc, if_neg Bool.false_ne_true]
      exact ih _ (b.erase c) _ (disconnect_apply_self reg uid c b hb)

lemma eraseFold_subset (ok : Conn → Bool) :
    ∀ (l : List Conn) (b : Finset Conn),
      l.foldl (fun bb c => if ok c then bb else bb.erase c) b ⊆ b := by
  intro l
  induction l with
  | nil => intro b; exact Finset.Subset.refl b
  | cons c l ih =>
    intro b
    rw [List.foldl_cons]
    cases hc : ok c with
    | true => simpa [hc] using ih b
    | false =>
      refine Finset.Subset.trans ?_ (Finset.erase_subset c b)
      simpa [hc] using ih (b.erase c)

lemma eraseFold_not_mem (ok : Conn → Bool) :
    ∀ (l : List Conn) (b : Finset Conn) (c : Conn),
      c ∈ l → ok c = false →
      c ∉ l.foldl (fun bb d => if ok d then bb else bb.erase d) b := by
  intro l
  induction l with
  | nil => intro b c hc; simp at hc
  | cons d l ih =>
    intro b c hc hok
    rw [List.foldl_cons]
    rcases List.mem_cons.mp hc with hcd | hcl
    · subst hcd
      rw [if_neg (by simp [hok])]
      intro hmem
      exact Finset.not_mem_erase c b (eraseFold_subset ok l (b.erase c) hmem)
    · exact ih _ c hcl hok

/-- C7: during fanout a failing write removes exactly that connection from the
registry (as part of the send, without raising), the payload is still written
to every other registered connection whose write succeeds, the write list is
exactly the ok-connections of the bucket, and other users' buckets are
untouched. -/
theorem send_to_user_best_effort (reg : Registry) (uid : Int) (ok : Conn → Bool)
    (b : Finset Conn) (hb : reg uid = some b) (c0 : Conn) (hc0 : c0 ∈ b)
    (hfail : ok c0 = false) :
    (∀ c, c ∈ (send_to_user reg uid ok).2 ↔ c ∈ b ∧ ok c = true)
    ∧ c0 ∉ ((send_to_user reg uid ok).1 uid).getD ∅
    ∧ (∀ v, v ≠ uid → (send_to_user reg uid ok).1 v = reg v) := by
  unfold send_to_user
  rw [hb]
  refine ⟨?_, ?_, ?_⟩
  · intro c
    rw [sendFold_snd uid ok]
    simp [List.mem_filter, Finset.mem_sort]
  · rw [sendFold_fst_self uid ok _ reg b [] hb]
    simp only [Option.getD_some]
    exact eraseFold_not_mem ok _ b c0 (by simp [Finset.mem_sort, hc0]) hfail
  · intro v hv
    exact sendFold_fst_other uid ok v hv _ reg []

/-- Witness for C7: user 1 has connections 0 and 5; the write to 5 fails. -/
theorem send_to_user_best_effort_witness :
    ((fun v => if v = 1 then some ({0, 5} : Finset Conn) else none) 1 = some ({0, 5} : Finset Conn)
      ∧ 5 ∈ ({0, 5} : Finset Conn) ∧ (fun c => decide (c = 0)) 5 = false)
    ∧ ((∀ c, c ∈ (send_to_user (fun v => if v = 1 then some ({0, 5} : Finset Conn) else none) 1
            (fun c => decide (c = 0))).2 ↔ c ∈ ({0, 5} : Finset Conn) ∧ decide (c = 0) = true)
      ∧ 5 ∉ ((send_to_user (fun v => if v = 1 then some ({0, 5} : Finset Conn) else none) 1
            (fun c => decide (c = 0))).1 1).getD ∅
      ∧ (∀ v, v ≠ 1 → (send_to_user (fun v => if v = 1 then some ({0, 5} : Finset Conn) else none) 1
            (fun c => decide (c = 0))).1 v
          = (fun v => if v = 1 then some ({0, 5} : Finset Conn) else none) v)) :=
  ⟨⟨by decide, by decide, by decide⟩,
    send_to_user_best_effort (fun v => if v = 1 then some ({0, 5} : Finset Conn) else none) 1
      (fun c => decide (c = 0)) ({0, 5} : Finset Conn) (by decide) 5 (by decide) (by decide)⟩

/-- Output of rewrite stage 1 (src/main.py line 308): the sender's outgoing
instruction applied to the stripped text. -/
def stage1Out (st : ServerState) (user_id : Int) (rawText : String) (svc1 : Option String) :
    String :=
  (_rewrite_text (pyStrip rawText) (senderOutgoingOf st.db user_id) svc1).1

/-- Output of rewrite stage 2 (src/main.py line 309): the recipient's incoming
instruction applied to stage 1's output. -/
def stage2Out (st : ServerState) (user_id : Int) (r : User) (rawText : String)
    (svc1 svc2 : Option String) : String :=
  (_rewrite_text (stage1Out st user_id rawText svc1) (some (pyOr r.instruction "")) svc2).1

/-- C2: each rewrite stage returns non-empty text on non-empty input, and the
message persisted by a successful send stores a non-empty `rephrased_text`
whenever the trimmed original text is non-empty, for any combination of stage
outcomes (`svc1`, `svc2` range over success, empty output, and failure). -/
theorem persisted_rephrased_nonempty (st : ServerState) (wsConn : Conn) (user_id toField : Int)
    (rawText : String) (svc1 svc2 : Option String) (okS okR : Conn → Bool)
    (r : User) (hr : getUserById st.db toField = some r) (ht : pyStrip rawText ≠ "") :
    (∀ content instr svc, content ≠ "" → (_rewrite_text content instr svc).1 ≠ "")
    ∧ ∃ m, (handleSend st wsConn user_id toField rawText svc1 svc2 okS okR).1.db.messages
          = st.db.messages ++ [m]
        ∧ m.rephrased_text = some (stage2Out st user_id r rawText svc1 svc2)
        ∧ stage2Out st user_id r rawText svc1 svc2 ≠ "" := by
  refine ⟨fun content instr svc h => rewrite_text_nonempty content instr svc h, ?_⟩
  have hs2 : stage2Out st user_id r rawText svc1 svc2 ≠ "" :=
    rewrite_text_nonempty _ _ _ (rewrite_text_nonempty _ _ _ ht)
  unfold handleSend
  dsimp only
  rw [if_neg ht, hr]
  dsimp only [create_message]
  exact ⟨_, rfl, rfl, hs2⟩

/-- Witness for C2: alice sends "hi" to bob; stage 1 fails, stage 2 returns an
empty rewrite, and the persisted rephrased text is still non-empty. -/
theorem persisted_rephrased_nonempty_witness :
    getUserById ⟨[⟨1, "alice", some "", some "formal"⟩, ⟨2, "bob", some "pirate", some ""⟩],
        [], 1, 0⟩ 2 = some ⟨2, "bob", some "pirate", some ""⟩
    ∧ pyStrip " hi " ≠ ""
    ∧ ((∀ content instr svc, content ≠ "" → (_rewrite_text content instr svc).1 ≠ "")
      ∧ ∃ m, (handleSend ⟨fun _ => none, ⟨[⟨1, "alice", some "", some "formal"⟩,
              ⟨2, "bob", some "pirate", some ""⟩], [], 1, 0⟩⟩ 0 1 2 " hi " none (some " ")
              (fun _ => true) (fun _ => true)).1.db.messages
            = ([] : List Message) ++ [m]
          ∧ m.rephrased_text = some (stage2Out ⟨fun _ => none, ⟨[⟨1, "alice", some "", some "formal"⟩,
              ⟨2, "bob", some "pirate", some ""⟩], [], 1, 0⟩⟩ 1 ⟨2, "bob", some "pirate", some ""⟩
              " hi " none (some " "))
          ∧ stage2Out ⟨fun _ => none, ⟨[⟨1, "alice", some "", some "formal"⟩,
              ⟨2, "bob", some "pirate", some ""⟩], [], 1, 0⟩⟩ 1 ⟨2, "bob", some "pirate", some ""⟩
              " hi " none (some " ") ≠ "") :=
  ⟨by decide, by decide,
    persisted_rephrased_nonempty ⟨fun _ => none, ⟨[⟨1, "alice", some "", some "formal"⟩,
        ⟨2, "bob", some "pirate", some ""⟩], [], 1, 0⟩⟩ 0 1 2 " hi " none (some " ")
      (fun _ => true) (fun _ => true) ⟨2, "bob", some "pirate", some ""⟩ (by decide) (by decide)⟩

/-- C1: a successful send writes, to every sender connection whose write
succeeds, the payload whose `text` is the stage-1 output with `mine = true`,
and, to every recipient connection whose write succeeds, the payload whose
`text` is the stage-2 output with `mine = false`; both payloads carry the same
message id (`st.db.nextId`), the same original text, and the same outgoing
text, and no other message-type payload is produced (the only other possible
write is the `rewrite_failed` notice). When recipient and sender differ, the
recipient bucket used by the second fanout is the untouched original one. -/
theorem send_fanout_payloads (st : ServerState) (wsConn : Conn) (user_id toField : Int)
    (rawText : String) (svc1 svc2 : Option String) (okS okR : Conn → Bool)
    (r : User) (hr : getUserById st.db toField = some r) (ht : pyStrip rawText ≠ "") :
    (∀ c ∈ (st.reg user_id).getD ∅, okS c = true →
      (c, Payload.message st.db.nextId user_id toField
          (stage1Out st user_id rawText svc1) (stage2Out st user_id r rawText svc1 svc2)
          (pyStrip rawText) (stage1Out st user_id rawText svc1) true)
        ∈ (handleSend st wsConn user_id toField rawText svc1 svc2 okS okR).2)
    ∧ (∀ c ∈ ((send_to_user st.reg user_id okS).1 toField).getD ∅, okR c = true →
      (c, Payload.message st.db.nextId user_id toField
          (stage2Out st user_id r rawText svc1 svc2) (stage2Out st user_id r rawText svc1 svc2)
          (pyStrip rawText) (stage1Out st user_id rawText svc1) false)
        ∈ (handleSend st wsConn user_id toField rawText svc1 svc2 okS okR).2)
    ∧ (toField ≠ user_id → (send_to_user st.reg user_id okS).1 toField = st.reg toField)
    ∧ (∀ c p, (c, p) ∈ (handleSend st wsConn user_id toField rawText svc1 svc2 okS okR).2 →
        p = Payload.message st.db.nextId user_id toField
            (stage1Out st user_id rawText svc1) (stage2Out st user_id r rawText svc1 svc2)
            (pyStrip rawText) (stage1Out st user_id rawText svc1) true
        ∨ p = Payload.message st.db.nextId user_id toField
            (stage2Out st user_id r rawText svc1 svc2) (stage2Out st user_id r rawText svc1 svc2)
            (pyStrip rawText) (stage1Out st user_id rawText svc1) false
        ∨ p = Payload.error "rewrite_failed"
            (some "Unable to reach rewriting service; sending fallback text.")) := by
  have hmain : (handleSend st wsConn user_id toField rawText svc1 svc2 okS okR).2
      = (if (_rewrite_text (pyStrip rawText) (senderOutgoingOf st.db user_id) svc1).2.2
            || (_rewrite_text (stage1Out st user_id rawText svc1)
                (some (pyOr r.instruction "")) svc2).2.2 then
          [(wsConn, Payload.error "rewrite_failed"
            (some "Unable to reach rewriting service; sending fallback text."))]
        else [])
        ++ (send_to_user st.reg user_id okS).2.map (fun c =>
            (c, Payload.message st.db.nextId user_id toField
              (stage1Out st user_id rawText svc1) (stage2Out st user_id r rawText svc1 svc2)
              (pyStrip rawText) (stage1Out st user_id rawText svc1) true))
        ++ (send_to_user (send_to_user st.reg user_id okS).1 toField okR).2.map (fun c =>
            (c, Payload.message st.db.nextId user_id toField
              (stage2Out st user_id r rawText svc1 svc2) (stage2Out st user_id r rawText svc1 svc2)
              (pyStrip rawText) (stage1Out st user_id rawText svc1) false)) := by
    unfold handleSend
    dsimp only
    rw [if_neg ht, hr]
    rfl
  refine ⟨?_, ?_, ?_, ?_⟩
  · intro c hc hok
    rw [hmain]
    refine List.mem_append.mpr (Or.inl (List.mem_append.mpr (Or.inr ?_)))
    refine List.mem_map.mpr ⟨c, ?_, rfl⟩
    unfold send_to_user
    rw [sendFold_snd user_id okS]
    simp only [List.nil_append, List.mem_filter, Finset.mem_sort]
    exact ⟨hc, hok⟩
  · intro c hc hok
    rw [hmain]
    refine List.mem_append.mpr (Or.inr ?_)
    refine List.mem_map.mpr ⟨c, ?_, rfl⟩
    conv => rw [send_to_user]
    rw [sendFold_snd toField okR]
    simp only [List.nil_append, List.mem_filter, Finset.mem_sort]
    exact ⟨hc, hok⟩
  · intro hne
    unfold send_to_user
    exact sendFold_fst_other user_id okS toField hne _ st.reg []
  · intro c p hp
    rw [hmain] at hp
    rcases List.mem_append.mp hp with hcs | hcr
    · rcases List.mem_append.mp hcs with he | hs
      · right; right
        revert he
        split
        · intro he
          simp only [List.mem_singleton, Prod.mk.injEq] at he
          exact he.2
        · intro he
          simp at he
      · left
        rcases List.mem_map.mp hs with ⟨d, _, hde⟩
        simp only [Prod.mk.injEq] at hde
        exact hde.2.symm
    · right; left
      rcases List.mem_map.mp hcr with ⟨d, _, hde⟩
      simp only [Prod.mk.injEq] at hde
      exact hde.2.symm

/-- Witness for C1: alice (connection 10) sends "hi" to bob (connection 20);
both rewrites succeed; alice's connection receives the stage-1 text tagged
mine=true and bob's the stage-2 text tagged mine=false. -/
theorem send_fanout_payloads_witness :
    getUserById stW.db 2 = some bobW ∧ pyStrip "hi" ≠ ""
    ∧ (10, Payload.message stW.db.nextId 1 2 (stage1Out stW 1 "hi" (some "Greetings"))
          (stage2Out stW 1 bobW "hi" (some "Greetings") (some "Arr"))
          (pyStrip "hi") (stage1Out stW 1 "hi" (some "Greetings")) true)
        ∈ (handleSend stW 10 1 2 "hi" (some "Greetings") (some "Arr")
            (fun _ => true) (fun _ => true)).2
    ∧ (20, Payload.message stW.db.nextId 1 2
          (stage2Out stW 1 bobW "hi" (some "Greetings") (some "Arr"))
          (stage2Out stW 1 bobW "hi" (some "Greetings") (some "Arr"))
          (pyStrip "hi") (stage1Out stW 1 "hi" (some "Greetings")) false)
        ∈ (handleSend stW 10 1 2 "hi" (some "Greetings") (some "Arr")
            (fun _ => true) (fun _ => true)).2 :=
  ⟨by decide, by decide,
    (send_fanout_payloads stW 10 1 2 "hi" (some "Greetings") (some "Arr")
        (fun _ => true) (fun _ => true) bobW (by decide) (by decide)).1 10 (by decide) rfl,
    ((send_fanout_payloads stW 10 1 2 "hi" (some "Greetings") (some "Arr")
        (fun _ => true) (fun _ => true) bobW (by decide) (by decide)).2).1 20
      (by
        have h : (send_to_user stW.reg 1 (fun _ => true)).1 2 = stW.reg 2 := by
          unfold send_to_user
          exact sendFold_fst_other 1 (fun _ => true) 2 (by decide) _ stW.reg []
        rw [h]
        decide) rfl⟩

/-- A fold of dict-comprehension bindings leaves keys bound by none of the
iterated users unchanged. -/
lemma initFold_not_mem :
    ∀ (l : List User) (f : Int → Option Summary) (v : Int),
      (∀ u ∈ l, u.id ≠ v) → (l.foldl initStep f) v = f v := by
  intro l
  induction l with
  | nil => intro f v _; rfl
  | cons u l ih =>
    intro f v h
    rw [List.foldl_cons, ih (initStep f u) v (fun w hw => h w (List.mem_cons_of_mem u hw))]
    unfold initStep
    exact if_neg (fun he => h u (List.mem_cons_self u l) he.symm)

/-- With pairwise-distinct ids, the dict comprehension binds each user's id to
that user's blank summary. -/
lemma initFold_mem :
    ∀ (l : List User) (f : Int → Option Summary) (v : Int) (u : User),
      (l.map User.id).Nodup → u ∈ l → u.id = v →
      (l.foldl initStep f) v = some (blankSummary u) := by
  intro l
  induction l with
  | nil => intro f v u _ hu; simp at hu
  | cons w l ih =>
    intro f v u hnd hu hv
    have hnd' : (w.id :: l.map User.id).Nodup := by simpa using hnd
    obtain ⟨hwid, hltl⟩ := List.nodup_cons.mp hnd'
    rw [List.foldl_cons]
    rcases List.mem_cons.mp hu with huw | hul
    · subst huw
      have hnotin : ∀ u' ∈ l, u'.id ≠ v := by
        intro u' hu' he
        have hmem := List.mem_map_of_mem User.id hu'
        rw [he, ← hv] at hmem
        exact hwid hmem
      rw [initFold_not_mem l (initStep f u) v hnotin]
      unfold initStep
      rw [if_pos hv.symm]
    · exact ih (initStep f w) v u hltl hul hv

/-- The summaries dict starts with a blank entry for every known user other
than the viewer. -/
lemma initSummaries_eq (users : List User) (user_id : Int) (u : User)
    (hnd : (users.map User.id).Nodup) (hu : u ∈ users) (hne : u.id ≠ user_id) :
    initSummaries users user_id u.id = some (blankSummary u) := by
  unfold initSummaries
  apply initFold_mem
  · exact List.Nodup.sublist (List.Sublist.map User.id (List.filter_sublist users)) hnd
  · exact List.mem_filter.mpr ⟨hu, by simpa using hne⟩
  · rfl

/-- Characterization of the newest-first scan: starting from an entry `some s`,
the scan result for key `p` is decided by the first message whose peer is `p`,
and only fills an entry whose `last_message_id` is still null. -/
lemma scanFold_char (user_id : Int) :
    ∀ (msgs : List Message) (acc : Int → Option Summary) (p : Int) (s : Summary),
      acc p = some s →
      (msgs.foldl (scanStep user_id) acc) p =
        match msgs.find? (fun m => peerOf user_id m = p) with
        | none => some s
        | some m => if s.last_message_id = none then some (fillSummary user_id m s) else some s := by
  intro msgs
  induction msgs with
  | nil =>
    intro acc p s hs
    simpa using hs
  | cons m msgs ih =>
    intro acc p s hs
    rw [List.foldl_cons]
    by_cases hpeer : peerOf user_id m = p
    · rw [List.find?_cons_of_pos _ (by simp [hpeer])]
      by_cases hid : s.last_message_id = none
      · have hstep : scanStep user_id acc m
            = fun v => if v = p then some (fillSummary user_id m s) else acc v := by
          unfold scanStep
          dsimp only
          rw [hpeer, hs]
          simp [hid]
        rw [hstep]
        have hacc' : (fun v => if v = p then some (fillSummary user_id m s) else acc v) p
            = some (fillSummary user_id m s) := by simp
        rw [ih _ p (fillSummary user_id m s) hacc']
        cases hfind : msgs.find? (fun m' => peerOf user_id m' = p) with
        | none => simp [hid]
        | some m' => simp [hid, fillSummary]
      · have hstep : scanStep user_id acc m = acc := by
          unfold scanStep
          dsimp only
          rw [hpeer, hs]
          simp [hid]
        rw [hstep, ih acc p s hs]
        cases hfind : msgs.find? (fun m' => peerOf user_id m' = p) with
        | none => simp [hid]
        | some m' => simp [hid]
    · rw [List.find?_cons_of_neg _ (by simp [hpeer])]
      have hacc' : (scanStep user_id acc m) p = some s := by
        unfold scanStep
        cases hm : acc (peerOf user_id m) with
        | none => exact hs
        | some s' =>
          dsimp only
          split
          · exact hs
          · dsimp only
            rw [if_neg (fun he => hpeer he.symm)]
            exact hs
      exact ih _ p s hacc'

/-- In a newest-first list, the first message matching a peer has the maximal
timestamp among all matching messages. -/
lemma find?_max_timestamp (user_id pid : Int) :
    ∀ (msgs : List Message),
      msgs.Pairwise (fun a b => b.timestamp ≤ a.timestamp) →
      ∀ m, msgs.find? (fun m' => peerOf user_id m' = pid) = some m →
        m ∈ msgs ∧ peerOf user_id m = pid
        ∧ ∀ m' ∈ msgs, peerOf user_id m' = pid → m'.timestamp ≤ m.timestamp := by
  intro msgs
  induction msgs with
  | nil => intro _ m hm; simp at hm
  | cons a msgs ih =>
    intro hp m hm
    rcases List.pairwise_cons.mp hp with ⟨ha, hrest⟩
    by_cases hpa : peerOf user_id a = pid
    · rw [List.find?_cons_of_pos _ (by simp [hpa])] at hm
      cases hm
      refine ⟨List.mem_cons_self a msgs, hpa, ?_⟩
      intro m' hm' hpm'
      rcases List.mem_cons.mp hm' with h1 | h2
      · rw [h1]
      · exact ha m' h2
    · rw [List.find?_cons_of_neg _ (by simp [hpa])] at hm
      obtain ⟨hmem, hpm, hmax⟩ := ih hrest m hm
      refine ⟨List.mem_cons_of_mem a hmem, hpm, ?_⟩
      intro m' hm' hpm'
      rcases List.mem_cons.mp hm' with h1 | h2
      · rw [h1] at hpm'
        exact absurd hpm' hpa
      · exact hmax m' h2 hpm'

/-- C6: for every known peer other than the viewer, the aggregator returns an
entry; it is the blank all-null summary when no message touches the peer, and
otherwise it is filled from the first message of the newest-first scan touching
that peer (which, since the scan input is ordered newest-first, carries the
maximal timestamp among the peer's messages), with the display text chosen by
`fillSummary`/`summaryText`: sender view prefers outgoing, then rephrased,
then original, then empty; receiver view prefers rephrased, then outgoing,
then original, then empty. -/
theorem conversation_summary_spec (users : List User) (user_id : Int) (msgs : List Message)
    (u : User) (hnd : (users.map User.id).Nodup) (hu : u ∈ users) (hne : u.id ≠ user_id)
    (hsorted : msgs.Pairwise (fun a b => b.timestamp ≤ a.timestamp)) :
    (get_conversation_summaries users user_id msgs u.id =
      match msgs.find? (fun m => peerOf user_id m = u.id) with
      | none => some (blankSummary u)
      | some m => some (fillSummary user_id m (blankSummary u)))
    ∧ ∀ m, msgs.find? (fun m => peerOf user_id m = u.id) = some m →
        m ∈ msgs ∧ peerOf user_id m = u.id
        ∧ ∀ m' ∈ msgs, peerOf user_id m' = u.id → m'.timestamp ≤ m.timestamp := by
  constructor
  · unfold get_conversation_summaries
    rw [scanFold_char user_id msgs _ u.id (blankSummary u)
      (initSummaries_eq users user_id u hnd hu hne)]
    cases hfind : msgs.find? (fun m => peerOf user_id m = u.id) with
    | none => rfl
    | some m => simp [blankSummary]
  · intro m hm
    exact find?_max_timestamp user_id u.id msgs hsorted m hm

/-- Witness for C6: viewer alice, peer bob, two messages (newest first). -/
theorem conversation_summary_spec_witness :
    (([aliceW, bobW].map User.id).Nodup ∧ bobW ∈ [aliceW, bobW] ∧ bobW.id ≠ 1
      ∧ msgsW.Pairwise (fun a b => b.timestamp ≤ a.timestamp))
    ∧ ((get_conversation_summaries [aliceW, bobW] 1 msgsW bobW.id =
        match msgsW.find? (fun m => peerOf 1 m = bobW.id) with
        | none => some (blankSummary bobW)
        | some m => some (fillSummary 1 m (blankSummary bobW)))
      ∧ ∀ m, msgsW.find? (fun m => peerOf 1 m = bobW.id) = some m →
          m ∈ msgsW ∧ peerOf 1 m = bobW.id
          ∧ ∀ m' ∈ msgsW, peerOf 1 m' = bobW.id → m'.timestamp ≤ m.timestamp) :=
  ⟨⟨by decide, by decide, by decide, by decide⟩,
    conversation_summary_spec [aliceW, bobW] 1 msgsW bobW
      (by decide) (by decide) (by decide) (by decide)⟩

end TunedChat
